import Mathlib

/-!
Verification of the PDB toolkit's core logic: the storage-quantity
parser/formatter (src/utils/helper_functions.py), the MAX_PDB_STORAGE
precheck (src/pdb_clone.py), the DBMS_PDB.DESCRIBE fallback cascade and
plug-compatibility step (src/pdb_clone.py), the parameter reconciliation
used by the precheck report (src/utils/report_generator.py,
src/oracle_pdb_toolkit.py) and the postcheck parameter comparison
(src/pdb_clone.py), together with the aggregate overall-status rule.

Python strings are modelled as Lean `String`s, Python dicts of parameters
as association lists, Python floats as rationals (`ℚ`; binary-float
rounding, overflow to infinity, and NaN are outside the model), and
Python exceptions as `Except` values.
-/

/-! ### Model of the Python string primitives used by the code -/

/-- Model of Python `str.upper()` (the code only ever upper-cases ASCII
storage strings, so `Char.toUpper` suffices). -/
def pyUpper (s : String) : String := ⟨s.data.map Char.toUpper⟩

/-- Model of Python `str.strip()`: drop whitespace from both ends. -/
def pyStrip (s : String) : String :=
  ⟨((s.data.dropWhile Char.isWhitespace).reverse.dropWhile Char.isWhitespace).reverse⟩

/-- Model of Python `c in s`. -/
def pyContains (s : String) (c : Char) : Bool := s.data.contains c

/-- Model of Python `s.replace(c, '')`: remove every occurrence of `c`. -/
def pyRemoveChar (s : String) (c : Char) : String :=
  ⟨s.data.filter (fun d => d ≠ c)⟩

/-! ### Model of Python `float(str)` on decimal literals -/

/-- Numeric value of a decimal digit character. -/
def digitVal (c : Char) : ℕ := c.toNat - 48

/-- Decimal value of a big-endian digit-character list. -/
def digitsToNat (ds : List Char) : ℕ := ds.foldl (fun n c => 10 * n + digitVal c) 0

/-- Consume one optional leading sign; returns (negative?, rest). -/
def readSign : List Char → Bool × List Char
  | [] => (false, [])
  | c :: cs =>
    if c = '-' then (true, cs)
    else if c = '+' then (false, cs)
    else (false, c :: cs)

/-- Parse the optional exponent part (`e`/`E`, optional sign, digits);
`some 0` on empty input, `none` on trailing garbage. -/
def parseExp : List Char → Option ℤ
  | [] => some 0
  | e :: cs =>
    if e = 'e' ∨ e = 'E' then
      let (neg, cs1) := readSign cs
      let ds := cs1.takeWhile Char.isDigit
      let rest := cs1.dropWhile Char.isDigit
      if ds = [] ∨ rest ≠ [] then none
      else some (if neg then -(digitsToNat ds : ℤ) else (digitsToNat ds : ℤ))
    else none

/-- Parse `sign? digits [. digits] [exponent]`, requiring at least one
mantissa digit and no trailing garbage. -/
def pyFloatCore (cs : List Char) : Option ℚ :=
  let (neg, cs1) := readSign cs
  let ipart := cs1.takeWhile Char.isDigit
  let cs2 := cs1.dropWhile Char.isDigit
  match cs2 with
  | '.' :: cs3 =>
    let fpart := cs3.takeWhile Char.isDigit
    let cs4 := cs3.dropWhile Char.isDigit
    if ipart = [] ∧ fpart = [] then none
    else
      match parseExp cs4 with
      | none => none
      | some e =>
        let mag : ℚ := (digitsToNat ipart : ℚ) + (digitsToNat fpart : ℚ) / 10 ^ fpart.length
        some ((if neg then -mag else mag) * 10 ^ e)
  | _ =>
    if ipart = [] then none
    else
      match parseExp cs2 with
      | none => none
      | some e =>
        let mag : ℚ := (digitsToNat ipart : ℚ)
        some ((if neg then -mag else mag) * 10 ^ e)

/-- Model of Python `float(str)` over decimal literals: `none` models a
raised `ValueError`. Special values (`inf`, `nan`), underscore digit
separators and binary-float rounding are not modelled. -/
def pyFloat? (s : String) : Option ℚ := pyFloatCore (pyStrip s).data

/-! ### Storage-quantity parsing (src/utils/helper_functions.py) -/

/-- Translation of `parse_storage_value` (src/utils/helper_functions.py
lines 156-214): `none` is the unlimited/unparseable sentinel (Python
`None`). -/
def parse_storage_value (storage_str : String) : Option ℚ :=
  if storage_str = "" then none
  else
    let u := pyStrip (pyUpper storage_str)
    if u = "UNLIMITED" then none
    else if pyContains u 'G' then pyFloat? (pyRemoveChar u 'G')
    else if pyContains u 'M' then (pyFloat? (pyRemoveChar u 'M')).map (fun x => x / 1024)
    else if pyContains u 'T' then (pyFloat? (pyRemoveChar u 'T')).map (fun x => x * 1024)
    else (pyFloat? u).map (fun x => x / 1024 ^ 3)

/-- The same body as `parse_storage_value` but with the `try/except`
removed, so a `float()` failure propagates as `Except.error` instead of
being caught; used to state that the catching wrapper degrades every
parse failure to the sentinel. -/
def parse_storage_core (storage_str : String) : Except String (Option ℚ) :=
  if storage_str = "" then Except.ok none
  else
    let u := pyStrip (pyUpper storage_str)
    if u = "UNLIMITED" then Except.ok none
    else if pyContains u 'G' then
      match pyFloat? (pyRemoveChar u 'G') with
      | none => Except.error "ValueError"
      | some x => Except.ok (some x)
    else if pyContains u 'M' then
      match pyFloat? (pyRemoveChar u 'M') with
      | none => Except.error "ValueError"
      | some x => Except.ok (some (x / 1024))
    else if pyContains u 'T' then
      match pyFloat? (pyRemoveChar u 'T') with
      | none => Except.error "ValueError"
      | some x => Except.ok (some (x * 1024))
    else
      match pyFloat? u with
      | none => Except.error "ValueError"
      | some x => Except.ok (some (x / 1024 ^ 3))

/-! ### Rendering (model of the Python fixed-point format with two decimals) -/

/-- Big-endian decimal digit characters of `n` (Python `str(n)` for a
natural number). -/
def renderNatChars (n : ℕ) : List Char :=
  if n = 0 then ['0'] else ((Nat.digits 10 n).map Nat.digitChar).reverse

/-- Two-digit zero-padded rendering of `n < 100`. -/
def pad2Chars (n : ℕ) : List Char :=
  if n < 10 then '0' :: renderNatChars n else renderNatChars n

/-- Character list of the two-decimal fixed-point rendering: round to two decimals and
render. Ties are rounded with Mathlib's `round` (half-up); the
half-even behaviour of Python's binary-float formatting at exact ties,
and the `-0.00` rendering of tiny negatives, are not modelled. -/
def renderFixed2Chars (z : ℤ) : List Char :=
  (if z < 0 then ['-'] else []) ++ renderNatChars (z.natAbs / 100)
    ++ '.' :: pad2Chars (z.natAbs % 100)

/-- Model of Python formatting of q with two fixed decimal places. -/
def renderFixed2 (q : ℚ) : String := ⟨renderFixed2Chars (round (q * 100))⟩

/-- Translation of `format_storage_gb` (src/utils/helper_functions.py
lines 217-238); the Python default for `unlimited_text` is
`"UNLIMITED"`. -/
def format_storage_gb (gb_value : Option ℚ) (unlimited_text : String) : String :=
  match gb_value with
  | none => unlimited_text
  | some q => renderFixed2 q ++ "G"

/-- Translation of `convert_storage_to_gb` (src/utils/helper_functions.py
lines 241-269): `Sum.inl` is the formatted-string result
(`display_format=True`), `Sum.inr` the raw optional GB value. -/
def convert_storage_to_gb (storage_str : String) (display_format : Bool) :
    String ⊕ Option ℚ :=
  let gb_value := parse_storage_value storage_str
  if display_format then Sum.inl (format_storage_gb gb_value "UNLIMITED")
  else Sum.inr gb_value

/-! ### Parameter maps and validation results -/

/-- A Python dict of parameter name to value, as an association list. -/
abbrev ParamMap := List (String × String)

/-- The key set of a parameter map. -/
def keysOf (m : ParamMap) : List String := m.map Prod.fst

/-- Model of Python `m.get(k, d)`. -/
def getD (m : ParamMap) (k d : String) : String := (m.lookup k).getD d

/-- Model of `sorted(set(src.keys()) | set(tgt.keys()))`: the
deduplicated key union in ascending string order. -/
def keysUnion (src tgt : ParamMap) : List String :=
  List.insertionSort (· ≤ ·) ((keysOf src ++ keysOf tgt).dedup)

/-- One named check of a precheck/postcheck run (the dicts appended to
`validation_results` in src/pdb_clone.py); the display-only
`violations` payload is not modelled. -/
structure ValidationResult where
  check : String
  status : String
  source_value : String
  target_value : String
deriving DecidableEq

/-- One row of a parameter-comparison table: name, source display value,
target display value, classification tag. -/
structure DeltaRow where
  name : String
  source_val : String
  target_val : String
  status : String
deriving DecidableEq

/-! ### Configuration reconciliation (src/utils/report_generator.py;
the same loops appear in src/oracle_pdb_toolkit.py lines 2102-2187) -/

/-- Loop body of the CDB parameter comparison
(src/utils/report_generator.py lines 499-515): absent keys display as
`N/A`, equality gives `SAME`, otherwise `DIFF`. -/
def cdbRowFor (src tgt : ParamMap) (param : String) : DeltaRow :=
  let source_val := getD src param "N/A"
  let target_val := getD tgt param "N/A"
  if source_val = target_val then ⟨param, source_val, target_val, "SAME"⟩
  else ⟨param, source_val, target_val, "DIFF"⟩

/-- The CDB parameter-comparison rows, one per key of the sorted union
(src/utils/report_generator.py lines 493-515). -/
def cdbParamRows (src tgt : ParamMap) : List DeltaRow :=
  (keysUnion src tgt).map (cdbRowFor src tgt)

/-- Loop body of the PDB parameter comparison
(src/utils/report_generator.py lines 554-574): `target_pdb_exists` is
the provisioned flag; absent keys display as `Not Set` (or
`PDB not created yet` on the target side when not provisioned). -/
def pdbRowFor (target_pdb_exists : Bool) (src tgt : ParamMap) (param : String) : DeltaRow :=
  let source_val := getD src param "Not Set"
  let target_val := getD tgt param (if target_pdb_exists then "Not Set" else "PDB not created yet")
  if source_val = target_val ∧ target_pdb_exists = true then
    ⟨param, source_val, target_val, "SAME"⟩
  else if target_pdb_exists = false then ⟨param, source_val, target_val, "Pending"⟩
  else ⟨param, source_val, target_val, "DIFF"⟩

/-- The PDB parameter-comparison rows over the sorted key union
(src/utils/report_generator.py lines 527, 554-574). -/
def pdbParamRows (target_pdb_exists : Bool) (src tgt : ParamMap) : List DeltaRow :=
  (keysUnion src tgt).map (pdbRowFor target_pdb_exists src tgt)

/-- The report derives the provisioned flag from non-emptiness of the
target map (src/utils/report_generator.py line 530). -/
def pdbSectionRows (src tgt : ParamMap) : List DeltaRow :=
  pdbParamRows (decide (0 < tgt.length)) src tgt

/-! ### Postcheck parameter comparison (src/pdb_clone.py lines 1115-1132) -/

/-- `param_differences` of `perform_pdb_postcheck` (src/pdb_clone.py
lines 1117-1124): keys of the sorted union whose `N/A`-defaulted values
differ, with both values. -/
def postcheckParamDifferences (src tgt : ParamMap) : List (String × String × String) :=
  (keysUnion src tgt).filterMap (fun key =>
    let source_val := getD src key "N/A"
    let target_val := getD tgt key "N/A"
    if source_val ≠ target_val then some (key, source_val, target_val) else none)

/-- `params_match = len(param_differences) == 0` (src/pdb_clone.py
line 1126). -/
def postcheckParamsMatch (src tgt : ParamMap) : Bool :=
  (postcheckParamDifferences src tgt).length == 0

/-- The `Oracle DB Parameters Match` result appended at src/pdb_clone.py
lines 1127-1132. -/
def postcheckParamsVR (src tgt : ParamMap) : ValidationResult :=
  { check := "Oracle DB Parameters Match"
    status := if postcheckParamsMatch src tgt then "PASS" else "FAILED"
    source_value := toString (keysOf src).length ++ " parameters"
    target_value := toString (keysOf tgt).length ++ " parameters ("
      ++ toString (postcheckParamDifferences src tgt).length ++ " differences)" }

/-! ### Aggregate overall status (src/utils/report_generator.py line 406) -/

/-- `overall_pass = all(r['status'] == 'PASS' for r in validation_results
if r['status'] != 'SKIPPED')`. -/
def overallPass (validation_results : List ValidationResult) : Bool :=
  (validation_results.filter (fun r => r.status != "SKIPPED")).all
    (fun r => r.status == "PASS")

/-! ### DBMS_PDB.DESCRIBE fallback cascade (src/pdb_clone.py lines 617-674) -/

/-- Error values model the text of raised Python exceptions. -/
abbrev Err := String

/-- The nested try/except cascade over the four PL/SQL invocation
strategies (src/pdb_clone.py lines 617-674). `attempt i` abstracts
`source_cursor.execute(plsql_block_method<i>, ...)`: `ok` carries the
CLOB text that the strategy binds, `error` the raised exception. The
first component is the trace of strategies actually attempted, in
order; the second is the payload together with the producing strategy,
or the exception that escapes the cascade when all four strategies
fail. -/
def describeAttempts (attempt : ℕ → Except Err String) : List ℕ × Except Err (String × ℕ) :=
  match attempt 1 with
  | Except.ok xml => ([1], Except.ok (xml, 1))
  | Except.error _ =>
  match attempt 2 with
  | Except.ok xml => ([1, 2], Except.ok (xml, 2))
  | Except.error _ =>
  match attempt 3 with
  | Except.ok xml => ([1, 2, 3], Except.ok (xml, 3))
  | Except.error _ =>
  match attempt 4 with
  | Except.ok xml => ([1, 2, 3, 4], Except.ok (xml, 4))
  | Except.error _ => ([1, 2, 3, 4], Except.error "ALL_METHODS_FAILED_FILE_BASED_ONLY")

/-- The plug-compatibility check step (src/pdb_clone.py lines 448-778):
run the describe cascade, then `DBMS_PDB.CHECK_PLUG_COMPATIBILITY`
(abstracted as `compat`, which may itself raise); the outer
`except` (lines 745-778) converts every escaped exception into a
SKIPPED result, distinguishing the cascade's marker exception. The
display-only `violations` payload is not modelled. -/
def plugCompatStep (attempt : ℕ → Except Err String) (compat : String → Except Err Bool) :
    ValidationResult :=
  match (describeAttempts attempt).2 with
  | Except.ok (xml, _) =>
    match compat xml with
    | Except.ok b =>
        { check := "DBMS_PDB Plug Compatibility", status := if b then "PASS" else "FAILED",
          source_value := "XML generated (CLOB)", target_value := if b then "TRUE" else "FALSE" }
    | Except.error e =>
        { check := "DBMS_PDB Plug Compatibility", status := "SKIPPED",
          source_value := "Check failed", target_value := "Error: " ++ e }
  | Except.error e =>
    if e = "SKIP_FILE_BASED_CHECK" ∨ e = "ALL_METHODS_FAILED_FILE_BASED_ONLY" then
        { check := "DBMS_PDB Plug Compatibility", status := "SKIPPED",
          source_value := "N/A", target_value := "File-based only (requires manual check)" }
    else
        { check := "DBMS_PDB Plug Compatibility", status := "SKIPPED",
          source_value := "Check failed", target_value := "Error: " ++ e }

/-- After the plug-compatibility try/except, `perform_pdb_precheck`
unconditionally continues with the remaining parameter gathering and
returns the accumulated list (src/pdb_clone.py lines 780-930). The
checks appended before the plug step and the data-driven results after
it are abstracted as `before`/`after`. -/
def precheckValidationResults (before : List ValidationResult)
    (attempt : ℕ → Except Err String) (compat : String → Except Err Bool)
    (after : List ValidationResult) : List ValidationResult :=
  before ++ plugCompatStep attempt compat :: after

/-! ### MAX_PDB_STORAGE precheck (src/pdb_clone.py lines 364-436) -/

/-- Conversion of the raw target MAX_PDB_STORAGE string into a display
string and optional GB value (src/pdb_clone.py lines 385-406); a
`float()` failure is caught and keeps the original string with no
numeric value. -/
def targetMaxStorageConvert (raw : String) : String × Option ℚ :=
  if pyUpper raw = "UNLIMITED" then ("UNLIMITED", none)
  else
    let storage_str := pyUpper raw
    if pyContains storage_str 'G' then
      match pyFloat? (pyRemoveChar storage_str 'G') with
      | some g => (renderFixed2 g ++ "G", some g)
      | none => (raw, none)
    else if pyContains storage_str 'M' then
      match pyFloat? (pyRemoveChar storage_str 'M') with
      | some m => (renderFixed2 (m / 1024) ++ "G", some (m / 1024))
      | none => (raw, none)
    else if pyContains storage_str 'T' then
      match pyFloat? (pyRemoveChar storage_str 'T') with
      | some t => (renderFixed2 (t * 1024) ++ "G", some (t * 1024))
      | none => (raw, none)
    else
      match pyFloat? storage_str with
      | some b => (renderFixed2 (b / 1024 ^ 3) ++ "G", some (b / 1024 ^ 3))
      | none => (raw, none)

/-- Target MAX_PDB_STORAGE display and GB value including the
not-yet-created case (src/pdb_clone.py lines 364-412). -/
def targetMaxStorage (target_pdb_exists : Bool) (raw : String) : String × Option ℚ :=
  if target_pdb_exists then targetMaxStorageConvert raw
  else ("N/A (PDB not created yet)", none)

/-- `storage_ok` (src/pdb_clone.py lines 417-429). -/
def storageOk (disp : String) (max_storage_gb : Option ℚ) (source_size_gb : ℚ) : Bool :=
  if disp = "N/A (PDB not created yet)" then true
  else if disp = "UNLIMITED" then true
  else
    match max_storage_gb with
    | some g => decide (source_size_gb ≤ g)
    | none => true

/-- Status of the `MAX_PDB_STORAGE Limit` check (src/pdb_clone.py
lines 431-436). -/
def maxPdbStorageStatus (target_pdb_exists : Bool) (raw : String) (source_size_gb : ℚ) :
    String :=
  let r := targetMaxStorage target_pdb_exists raw
  if storageOk r.1 r.2 source_size_gb then "PASS" else "FAILED"

/-! ### File-based fallback strategy (src/pdb_clone.py lines 575-612) -/

/-- State model of `plsql_block_method4`: the server file system is a
list of file names. Step 1 (`DBMS_PDB.DESCRIBE(pdb_descr_file => ...)`)
creates the scratch file unless it raises (`describe_ok = false`);
the read-back (`UTL_FILE.FOPEN`/`GET_LINE`, `read_ok = false` when it
raises) then runs with no surrounding exception handler, and
`UTL_FILE.FREMOVE` is executed only after a successful read-back.
Returns the strategy outcome and the final file-system state. -/
def method4Run (fs : List String) (filename : String) (describe_ok read_ok : Bool)
    (content : String) : Except Err String × List String :=
  if describe_ok = false then (Except.error "DESCRIBE raised", fs)
  else
    let fs1 := filename :: fs
    if read_ok = false then (Except.error "UTL_FILE raised", fs1)
    else (Except.ok content, fs1.erase filename)

/-! ### Concrete oracles used by witnesses and counterexamples -/

/-- A connection whose strategy 1 raises and whose strategy 2 succeeds. -/
def exAttemptFail1 : ℕ → Except Err String :=
  fun i => if i = 1 then Except.error "ORA-06550: wrong arguments" else Except.ok "XMLPAYLOAD"

/-- A connection on which every strategy raises, last error `boom-A4`. -/
def allFailA : ℕ → Except Err String := fun i => Except.error ("boom-A" ++ toString i)

/-- A connection on which every strategy raises, last error `boom-B4`. -/
def allFailB : ℕ → Except Err String := fun i => Except.error ("boom-B" ++ toString i)

/-- A compatibility call that always succeeds with `TRUE`. -/
def exCompat : String → Except Err Bool := fun _ => Except.ok true

/-! ### Helper lemmas -/

theorem lookup_eq_none_of_not_mem {m : ParamMap} {k : String} (h : k ∉ keysOf m) :
    m.lookup k = none := by
  induction m with
  | nil => rfl
  | cons p t ih =>
    simp only [keysOf, List.map_cons, List.mem_cons, not_or] at h
    obtain ⟨hne, hnt⟩ := h
    obtain ⟨a, b⟩ := p
    rw [List.lookup_cons]
    have : (k == a) = false := beq_eq_false_iff_ne.mpr hne
    rw [this]
    exact ih (by simpa [keysOf] using hnt)

theorem cdbRowFor_name (src tgt : ParamMap) (k : String) : (cdbRowFor src tgt k).name = k := by
  dsimp only [cdbRowFor]
  split <;> rfl

theorem cdbRowFor_status_same (src tgt : ParamMap) (k : String) :
    (cdbRowFor src tgt k).status = "SAME" ↔ getD src k "N/A" = getD tgt k "N/A" := by
  dsimp only [cdbRowFor]
  split <;> simp_all

theorem keysUnion_mem {src tgt : ParamMap} {k : String} :
    k ∈ keysUnion src tgt ↔ k ∈ keysOf src ∨ k ∈ keysOf tgt := by
  simp [keysUnion, List.mem_insertionSort, List.mem_dedup, List.mem_append]

theorem keysUnion_sorted (src tgt : ParamMap) :
    List.Sorted (· < ·) (keysUnion src tgt) := by
  have hs : List.Sorted (· ≤ ·) (keysUnion src tgt) :=
    List.sorted_insertionSort _ _
  have hn : (keysUnion src tgt).Nodup :=
    (List.perm_insertionSort _ _).nodup_iff.mpr (List.nodup_dedup _)
  exact (List.Pairwise.and hs hn).imp (fun h => lt_of_le_of_ne h.1 h.2)

theorem describeAttempts_error_iff (attempt : ℕ → Except Err String) :
    (∃ e, (describeAttempts attempt).2 = Except.error e)
      ↔ ∀ i, 1 ≤ i → i ≤ 4 → ∃ e, attempt i = Except.error e := by
  rcases h1 : attempt 1 with e1 | x1
  case ok =>
    constructor
    · rintro ⟨e, he⟩
      simp [describeAttempts, h1] at he
    · intro hall
      obtain ⟨e, he⟩ := hall 1 (by norm_num) (by norm_num)
      rw [h1] at he
      exact absurd he (by simp)
  rcases h2 : attempt 2 with e2 | x2
  case ok =>
    constructor
    · rintro ⟨e, he⟩
      simp [describeAttempts, h1, h2] at he
    · intro hall
      obtain ⟨e, he⟩ := hall 2 (by norm_num) (by norm_num)
      rw [h2] at he
      exact absurd he (by simp)
  rcases h3 : attempt 3 with e3 | x3
  case ok =>
    constructor
    · rintro ⟨e, he⟩
      simp [describeAttempts, h1, h2, h3] at he
    · intro hall
      obtain ⟨e, he⟩ := hall 3 (by norm_num) (by norm_num)
      rw [h3] at he
      exact absurd he (by simp)
  rcases h4 : attempt 4 with e4 | x4
  case ok =>
    constructor
    · rintro ⟨e, he⟩
      simp [describeAttempts, h1, h2, h3, h4] at he
    · intro hall
      obtain ⟨e, he⟩ := hall 4 (by norm_num) (by norm_num)
      rw [h4] at he
      exact absurd he (by simp)
  constructor
  · intro _ i hi1 hi4
    interval_cases i
    · exact ⟨e1, h1⟩
    · exact ⟨e2, h2⟩
    · exact ⟨e3, h3⟩
    · exact ⟨e4, h4⟩
  · intro _
    exact ⟨"ALL_METHODS_FAILED_FILE_BASED_ONLY", by
      simp [describeAttempts, h1, h2, h3, h4]⟩

theorem describeAttempts_all_fail (attempt : ℕ → Except Err String)
    (hall : ∀ i, 1 ≤ i → i ≤ 4 → ∃ e, attempt i = Except.error e) :
    (describeAttempts attempt).2 = Except.error "ALL_METHODS_FAILED_FILE_BASED_ONLY" := by
  obtain ⟨e1, h1⟩ := hall 1 (by norm_num) (by norm_num)
  obtain ⟨e2, h2⟩ := hall 2 (by norm_num) (by norm_num)
  obtain ⟨e3, h3⟩ := hall 3 (by norm_num) (by norm_num)
  obtain ⟨e4, h4⟩ := hall 4 (by norm_num) (by norm_num)
  simp [describeAttempts, h1, h2, h3, h4]

/-! ### Claim theorems -/

/-- C9: the aggregate overall status of the precheck report is PASS
exactly when every validation result whose status is not SKIPPED has
status PASS, so SKIPPED results are never conflated with FAILED. -/
theorem c9_overall_pass_iff (validation_results : List ValidationResult) :
    overallPass validation_results = true
      ↔ ∀ r ∈ validation_results, r.status ≠ "SKIPPED" → r.status = "PASS" := by
  simp only [overallPass, List.all_eq_true, List.mem_filter, bne_iff_ne, beq_iff_eq,
    and_imp]

/-- Witness for C9: a list with one PASS and one SKIPPED entry and no
FAILED entry is aggregated to overall PASS. -/
theorem c9_overall_pass_iff_witness :
    overallPass [⟨"Version", "PASS", "19c", "19c"⟩,
      ⟨"DBMS_PDB Plug Compatibility", "SKIPPED", "N/A", "N/A"⟩] = true := by
  exact (c9_overall_pass_iff _).mpr (by decide)

/-- C1: in the precheck report's PDB parameter reconciliation, every key
of the key union is classified `Pending` whenever the target is not
provisioned, and otherwise `SAME` exactly when the source display value
string-equals the target display value (both defaulting to the
`Not Set` sentinel), `DIFF` otherwise. -/
theorem c1_classification (target_pdb_exists : Bool) (src tgt : ParamMap) (k : String) :
    pdbParamRows target_pdb_exists src tgt
        = (keysUnion src tgt).map (pdbRowFor target_pdb_exists src tgt)
      ∧ (pdbRowFor target_pdb_exists src tgt k).status =
          (if target_pdb_exists = false then "Pending"
           else if getD src k "Not Set" = getD tgt k "Not Set" then "SAME" else "DIFF") := by
  refine ⟨rfl, ?_⟩
  cases target_pdb_exists with
  | false => simp [pdbRowFor]
  | true =>
    simp only [pdbRowFor, if_true, Bool.true_eq_false, and_true, if_false]
    split_ifs <;> simp_all

/-- C3: the describe cascade attempts its four strategies strictly in
order 1,2,3,4; if strategies 1..k raise and strategy k+1 succeeds with
payload p, the result is p tagged with strategy k+1, the attempt trace
is exactly 1..k+1, and strategy k+2 is never attempted. -/
theorem c3_strategy_order (attempt : ℕ → Except Err String) (k : ℕ) (p : String)
    (hk : k < 4)
    (hfail : ∀ i, 1 ≤ i → i ≤ k → ∃ e, attempt i = Except.error e)
    (hsucc : attempt (k + 1) = Except.ok p) :
    describeAttempts attempt = (List.range' 1 (k + 1), Except.ok (p, k + 1))
      ∧ k + 2 ∉ (describeAttempts attempt).1 := by
  interval_cases k
  · refine ⟨by simp [describeAttempts, hsucc, List.range'], ?_⟩
    simp [describeAttempts, hsucc]
  · obtain ⟨e1, h1⟩ := hfail 1 (by norm_num) (by norm_num)
    refine ⟨by simp [describeAttempts, h1, hsucc, List.range'], ?_⟩
    simp [describeAttempts, h1, hsucc]
  · obtain ⟨e1, h1⟩ := hfail 1 (by norm_num) (by norm_num)
    obtain ⟨e2, h2⟩ := hfail 2 (by norm_num) (by norm_num)
    refine ⟨by simp [describeAttempts, h1, h2, hsucc, List.range'], ?_⟩
    simp [describeAttempts, h1, h2, hsucc]
  · obtain ⟨e1, h1⟩ := hfail 1 (by norm_num) (by norm_num)
    obtain ⟨e2, h2⟩ := hfail 2 (by norm_num) (by norm_num)
    obtain ⟨e3, h3⟩ := hfail 3 (by norm_num) (by norm_num)
    refine ⟨by simp [describeAttempts, h1, h2, h3, hsucc, List.range'], ?_⟩
    simp [describeAttempts, h1, h2, h3, hsucc]

/-- Witness for C3: on a connection failing strategy 1 and succeeding at
strategy 2, the cascade returns the strategy-2 payload after attempting
exactly strategies 1 and 2; strategy 3 is never attempted. -/
theorem c3_strategy_order_witness :
    describeAttempts exAttemptFail1 = (List.range' 1 2, Except.ok ("XMLPAYLOAD", 2))
      ∧ (3 : ℕ) ∉ (describeAttempts exAttemptFail1).1 := by
  exact c3_strategy_order exAttemptFail1 1 "XMLPAYLOAD" (by norm_num)
    (fun i h1 h2 => ⟨"ORA-06550: wrong arguments", by
      interval_cases i
      rfl⟩) rfl

/-- C4 (amended): when and only when all four strategies fail, the
cascade signals the fixed marker exception
`ALL_METHODS_FAILED_FILE_BASED_ONLY` (which does not carry the
underlying failure), and this outcome is non-fatal: the precheck
records the plug-compatibility check with status SKIPPED and still
produces every remaining check after it. -/
theorem c4_exhaustion_skipped (attempt : ℕ → Except Err String)
    (compat : String → Except Err Bool) (before after : List ValidationResult) :
    ((∃ e, (describeAttempts attempt).2 = Except.error e)
        ↔ ∀ i, 1 ≤ i → i ≤ 4 → ∃ e, attempt i = Except.error e)
      ∧ ((∀ i, 1 ≤ i → i ≤ 4 → ∃ e, attempt i = Except.error e) →
          (describeAttempts attempt).2 = Except.error "ALL_METHODS_FAILED_FILE_BASED_ONLY"
            ∧ (plugCompatStep attempt compat).status = "SKIPPED"
            ∧ plugCompatStep attempt compat ∈ precheckValidationResults before attempt compat after
            ∧ after <:+ precheckValidationResults before attempt compat after) := by
  refine ⟨describeAttempts_error_iff attempt, fun hall => ?_⟩
  have herr := describeAttempts_all_fail attempt hall
  refine ⟨herr, ?_, ?_, ?_⟩
  · simp [plugCompatStep, herr]
  · simp [precheckValidationResults]
  · rw [precheckValidationResults, List.append_cons]
    exact List.suffix_append _ _

/-- Witness for C4: on a connection whose four strategies all raise, the
marker exception escapes the cascade, the plug-compatibility result is
SKIPPED, and a subsequent check is still produced. -/
theorem c4_exhaustion_skipped_witness :
    (describeAttempts allFailA).2 = Except.error "ALL_METHODS_FAILED_FILE_BASED_ONLY"
      ∧ (plugCompatStep allFailA exCompat).status = "SKIPPED"
      ∧ [⟨"DB Service Names Match", "PASS", "1 services", "1 services"⟩] <:+
          precheckValidationResults [] allFailA exCompat
            [⟨"DB Service Names Match", "PASS", "1 services", "1 services"⟩] := by
  have h := (c4_exhaustion_skipped allFailA exCompat []
    [⟨"DB Service Names Match", "PASS", "1 services", "1 services"⟩]).2
    (fun i _ _ => ⟨"boom-A" ++ toString i, rfl⟩)
  exact ⟨h.1, h.2.1, h.2.2.2⟩

/-- Counterexample for C4 as stated: the signalled 'unavailable' error is
the same fixed marker for two all-failing connections whose last
underlying errors differ, so it does not carry the underlying
failure. -/
theorem c4_counterexample :
    allFailA 4 = Except.error "boom-A4" ∧ allFailB 4 = Except.error "boom-B4"
      ∧ "boom-A4" ≠ "boom-B4"
      ∧ (describeAttempts allFailA).2 = (describeAttempts allFailB).2 := by
  refine ⟨rfl, rfl, by decide, rfl⟩

/-- C8: evaluating the file-based strategy's state model at its failing
input: when `DBMS_PDB.DESCRIBE` creates the scratch file but the
read-back raises, the strategy fails and the scratch file persists
(first conjunct), whereas the success path removes it (second
conjunct); the claim that no temporary file remains on every path is
therefore violated by the code. -/
theorem c8_temp_file_persists_on_read_failure :
    method4Run [] "pdb_describe_20260101120000.xml" true false "<xml/>"
        = (Except.error "UTL_FILE raised", ["pdb_describe_20260101120000.xml"])
      ∧ method4Run [] "pdb_describe_20260101120000.xml" true true "<xml/>"
        = (Except.ok "<xml/>", [])
      ∧ (["pdb_describe_20260101120000.xml"] : List String) ≠ [] := by
  refine ⟨rfl, rfl, by decide⟩

/-- C10: in the postcheck comparison an absent key defaults to the
literal `N/A`; hence a key present on one side with the exact value
`N/A` and absent on the other compares as equal and is omitted from
`param_differences`, and the `Oracle DB Parameters Match` check can
report PASS although the key sets differ. -/
theorem c10_na_default_hides_missing_key (src tgt : ParamMap) (k : String)
    (hk : k ∈ keysOf src) (hv : src.lookup k = some "N/A") (hnk : k ∉ keysOf tgt) :
    getD src k "N/A" = getD tgt k "N/A"
      ∧ (∀ d ∈ postcheckParamDifferences src tgt, d.1 ≠ k)
      ∧ (postcheckParamsVR [("open_cursors", "N/A")] []).status = "PASS"
      ∧ keysOf [("open_cursors", "N/A")] ≠ keysOf ([] : ParamMap) := by
  have heq : getD src k "N/A" = getD tgt k "N/A" := by
    rw [getD, getD, hv, lookup_eq_none_of_not_mem hnk]
    rfl
  refine ⟨heq, ?_, by rfl, by decide⟩
  intro d hd
  obtain ⟨a, _, hfa⟩ := List.mem_filterMap.mp hd
  intro hdk
  by_cases hav : getD src a "N/A" = getD tgt a "N/A"
  · simp only [hav, ne_eq, not_true_eq_false, if_false] at hfa
    exact Option.noConfusion hfa
  · simp only [ne_eq, hav, not_false_eq_true, if_true, Option.some.injEq] at hfa
    apply hav
    rw [← hfa] at hdk
    simp only at hdk
    rw [hdk] at hav ⊢
    exact heq

/-- Witness for C10: the concrete one-key map with value `N/A` against
the empty map. -/
theorem c10_na_default_hides_missing_key_witness :
    getD [("open_cursors", "N/A")] "open_cursors" "N/A" = getD [] "open_cursors" "N/A"
      ∧ (∀ d ∈ postcheckParamDifferences [("open_cursors", "N/A")] [], d.1 ≠ "open_cursors")
      ∧ (postcheckParamsVR [("open_cursors", "N/A")] []).status = "PASS" := by
  have h := c10_na_default_hides_missing_key [("open_cursors", "N/A")] [] "open_cursors"
    (by decide) rfl (by decide)
  exact ⟨h.1, h.2.1, h.2.2.1⟩

/-- C2: the reconciliation's rows cover exactly the key union of the two
maps in strictly ascending key order, and the postcheck's all-match
summary is true exactly when every row is classified SAME; both maps
empty give an empty delta list and an all-match of true. -/
theorem c2_union_sorted_all_match (src tgt : ParamMap) :
    (cdbParamRows src tgt).map DeltaRow.name = keysUnion src tgt
      ∧ List.Sorted (· < ·) (keysUnion src tgt)
      ∧ (∀ k, k ∈ keysUnion src tgt ↔ k ∈ keysOf src ∨ k ∈ keysOf tgt)
      ∧ (postcheckParamsMatch src tgt = true ↔
          ∀ r ∈ cdbParamRows src tgt, r.status = "SAME")
      ∧ cdbParamRows [] [] = [] ∧ postcheckParamsMatch [] [] = true := by
  have hmatch : postcheckParamsMatch src tgt = true ↔
      ∀ a ∈ keysUnion src tgt, getD src a "N/A" = getD tgt a "N/A" := by
    rw [postcheckParamsMatch, beq_iff_eq, List.length_eq_zero, postcheckParamDifferences,
      List.filterMap_eq_nil]
    constructor
    · intro h a ha
      by_contra hne
      have := h a ha
      simp only [ne_eq, hne, not_false_eq_true, if_true] at this
      exact Option.noConfusion this
    · intro h a ha
      simp [h a ha]
  refine ⟨?_, keysUnion_sorted src tgt, fun k => keysUnion_mem, ?_, rfl, rfl⟩
  · rw [cdbParamRows, List.map_map]
    have : ∀ a ∈ keysUnion src tgt, (DeltaRow.name ∘ cdbRowFor src tgt) a = id a :=
      fun a _ => cdbRowFor_name src tgt a
    rw [List.map_congr_left this, List.map_id]
  · rw [hmatch, cdbParamRows]
    constructor
    · rintro h r hr
      obtain ⟨a, ha, rfl⟩ := List.mem_map.mp hr
      exact (cdbRowFor_status_same src tgt a).mpr (h a ha)
    · intro h a ha
      exact (cdbRowFor_status_same src tgt a).mp (h _ (List.mem_map_of_mem _ ha))

theorem string_concat_G_ne (s t : String) (ht : t.data.getLast? ≠ some 'G') :
    s ++ "G" ≠ t := by
  intro h
  have hd : s.data ++ ['G'] = t.data := by
    have h2 := congrArg String.data h
    rwa [String.data_append] at h2
  have h3 : (s.data ++ ['G']).getLast? = t.data.getLast? := by rw [hd]
  rw [List.getLast?_concat] at h3
  exact ht h3.symm

theorem storageOk_none (disp : String) (s : ℚ) : storageOk disp none s = true := by
  unfold storageOk
  split_ifs <;> rfl

theorem storageOk_some_renderG (g v s : ℚ) :
    storageOk (renderFixed2 g ++ "G") (some v) s = decide (s ≤ v) := by
  unfold storageOk
  rw [if_neg (string_concat_G_ne _ _ (by decide)), if_neg (string_concat_G_ne _ _ (by decide))]

theorem targetMaxStorageConvert_shape (raw : String) :
    (∃ g, targetMaxStorageConvert raw = (renderFixed2 g ++ "G", some g))
      ∨ targetMaxStorageConvert raw = ("UNLIMITED", none)
      ∨ targetMaxStorageConvert raw = (raw, none) := by
  by_cases hU : pyUpper raw = "UNLIMITED"
  · right; left
    simp [targetMaxStorageConvert, hU]
  · by_cases hG : pyContains (pyUpper raw) 'G' = true
    · rcases hf : pyFloat? (pyRemoveChar (pyUpper raw) 'G') with _ | g
      · right; right
        simp [targetMaxStorageConvert, hU, hG, hf]
      · left
        exact ⟨g, by simp [targetMaxStorageConvert, hU, hG, hf]⟩
    · by_cases hM : pyContains (pyUpper raw) 'M' = true
      · rcases hf : pyFloat? (pyRemoveChar (pyUpper raw) 'M') with _ | m
        · right; right
          simp [targetMaxStorageConvert, hU, hG, hM, hf]
        · left
          exact ⟨m / 1024, by simp [targetMaxStorageConvert, hU, hG, hM, hf]⟩
      · by_cases hT : pyContains (pyUpper raw) 'T' = true
        · rcases hf : pyFloat? (pyRemoveChar (pyUpper raw) 'T') with _ | t
          · right; right
            simp [targetMaxStorageConvert, hU, hG, hM, hT, hf]
          · left
            exact ⟨t * 1024, by simp [targetMaxStorageConvert, hU, hG, hM, hT, hf]⟩
        · rcases hf : pyFloat? (pyUpper raw) with _ | b
          · right; right
            simp [targetMaxStorageConvert, hU, hG, hM, hT, hf]
          · left
            exact ⟨b / 1024 ^ 3, by simp [targetMaxStorageConvert, hU, hG, hM, hT, hf]⟩

/-- C7: the MAX_PDB_STORAGE precheck reports PASS exactly when the
converted target limit is the unlimited sentinel (`none`, which covers
UNLIMITED, a not-yet-created target PDB, and an unparseable limit) or
the parsed numeric limit is at least the source PDB size; equality at
the boundary passes, and FAILED occurs only for a strictly smaller
parsed limit. -/
theorem c7_storage_sufficiency (target_pdb_exists : Bool) (raw : String)
    (source_size_gb : ℚ) :
    maxPdbStorageStatus target_pdb_exists raw source_size_gb = "PASS"
      ↔ ((targetMaxStorage target_pdb_exists raw).2 = none
          ∨ ∃ g, (targetMaxStorage target_pdb_exists raw).2 = some g
              ∧ source_size_gb ≤ g) := by
  cases target_pdb_exists with
  | false => simp [maxPdbStorageStatus, targetMaxStorage, storageOk]
  | true =>
    simp only [maxPdbStorageStatus, targetMaxStorage, if_true]
    rcases targetMaxStorageConvert_shape raw with ⟨g, hconv⟩ | hconv | hconv <;> rw [hconv]
    · simp only [storageOk_some_renderG, decide_eq_true_eq]
      split_ifs with h <;> simp [h]
    · simp [storageOk_none]
    · simp [storageOk_none]

/-! ### Digit-rendering lemmas -/

theorem fixedChar_facts :
    ∀ c ∈ "-.0123456789G".data,
      Char.toUpper c = c ∧ c.isWhitespace = false ∧ (c = 'G' ∨ c.isDigit ∨ c = '-' ∨ c = '.') := by
  decide

theorem digitChar_mem {d : ℕ} (h : d < 10) : Nat.digitChar d ∈ "0123456789".data := by
  interval_cases d <;> decide

theorem digitVal_digitChar {d : ℕ} (h : d < 10) : digitVal (Nat.digitChar d) = d := by
  interval_cases d <;> decide

theorem digit_subset_fixed :
    ∀ c ∈ "0123456789".data, c ∈ "-.0123456789G".data ∧ c.isDigit = true ∧ c ≠ 'G' := by
  decide

theorem renderNatChars_subset (n : ℕ) : ∀ c ∈ renderNatChars n, c ∈ "0123456789".data := by
  intro c hc
  rw [renderNatChars] at hc
  split at hc
  · simp only [List.mem_singleton] at hc
    rw [hc]; decide
  · rw [List.mem_reverse, List.mem_map] at hc
    obtain ⟨d, hd, rfl⟩ := hc
    exact digitChar_mem (Nat.digits_lt_base (by norm_num) hd)

theorem renderNatChars_isDigit (n : ℕ) : ∀ c ∈ renderNatChars n, c.isDigit = true :=
  fun c hc => (digit_subset_fixed c (renderNatChars_subset n c hc)).2.1

theorem renderNatChars_ne_nil (n : ℕ) : renderNatChars n ≠ [] := by
  rw [renderNatChars]
  split
  · simp
  · simp only [ne_eq, List.reverse_eq_nil_iff, List.map_eq_nil]
    exact Nat.digits_ne_nil_iff_ne_zero.mpr (by assumption)

theorem digitsToNat_reverse_map (l : List ℕ) (hl : ∀ d ∈ l, d < 10) :
    digitsToNat ((l.map Nat.digitChar).reverse) = Nat.ofDigits 10 l := by
  induction l with
  | nil => rfl
  | cons d t ih =>
    have hd : d < 10 := hl d (by simp)
    have ht : ∀ x ∈ t, x < 10 := fun x hx => hl x (by simp [hx])
    rw [List.map_cons, List.reverse_cons, digitsToNat, List.foldl_append]
    have ihv : List.foldl (fun n c => 10 * n + digitVal c) 0 ((t.map Nat.digitChar).reverse)
        = Nat.ofDigits 10 t := ih ht
    rw [ihv]
    simp only [List.foldl_cons, List.foldl_nil, Nat.ofDigits_cons,
      digitVal_digitChar hd]
    omega

theorem digitsToNat_renderNatChars (n : ℕ) : digitsToNat (renderNatChars n) = n := by
  rw [renderNatChars]
  split
  · rename_i h
    subst h
    decide
  · rw [digitsToNat_reverse_map _ (fun d hd => Nat.digits_lt_base (by norm_num) hd),
      Nat.ofDigits_digits]

theorem renderNatChars_lt_ten {m : ℕ} (h : m < 10) : (renderNatChars m).length = 1 := by
  rcases Nat.eq_zero_or_pos m with rfl | hm
  · rfl
  · rw [renderNatChars, if_neg (Nat.pos_iff_ne_zero.mp hm),
      Nat.digits_def' (by norm_num : (1:ℕ) < 10) hm, Nat.mod_eq_of_lt h,
      Nat.div_eq_of_lt h, Nat.digits_zero]
    rfl

theorem pad2Chars_spec {m : ℕ} (h : m < 100) :
    (pad2Chars m).length = 2 ∧ digitsToNat (pad2Chars m) = m
      ∧ ∀ c ∈ pad2Chars m, c ∈ "0123456789".data := by
  rw [pad2Chars]
  by_cases hm : m < 10
  · rw [if_pos hm]
    refine ⟨by rw [List.length_cons, renderNatChars_lt_ten hm], ?_, ?_⟩
    · show digitsToNat (renderNatChars m) = m
      exact digitsToNat_renderNatChars m
    · intro c hc
      rcases List.mem_cons.mp hc with rfl | hc2
      · decide
      · exact renderNatChars_subset m c hc2
  · rw [if_neg hm]
    push_neg at hm
    have hm0 : 0 < m := by omega
    have hdig : Nat.digits 10 m = [m % 10, m / 10] := by
      rw [Nat.digits_def' (by norm_num : (1:ℕ) < 10) hm0,
        Nat.digits_def' (by norm_num : (1:ℕ) < 10) (by omega : 0 < m / 10),
        Nat.mod_eq_of_lt (by omega : m / 10 < 10),
        Nat.div_eq_of_lt (by omega : m / 10 < 10), Nat.digits_zero]
    refine ⟨?_, ?_, ?_⟩
    · rw [renderNatChars, if_neg (by omega), hdig]
      rfl
    · rw [digitsToNat_renderNatChars]
    · exact renderNatChars_subset m

/-! ### List-scanning helper lemmas -/

theorem takeWhile_append_all {α : Type} {p : α → Bool} {l1 l2 : List α}
    (h : ∀ a ∈ l1, p a = true) : (l1 ++ l2).takeWhile p = l1 ++ l2.takeWhile p := by
  induction l1 with
  | nil => rfl
  | cons a t ih =>
    rw [List.cons_append, List.takeWhile_cons, if_pos (h a (by simp)), List.cons_append,
      ih (fun x hx => h x (by simp [hx]))]

theorem dropWhile_append_all {α : Type} {p : α → Bool} {l1 l2 : List α}
    (h : ∀ a ∈ l1, p a = true) : (l1 ++ l2).dropWhile p = l2.dropWhile p := by
  induction l1 with
  | nil => rfl
  | cons a t ih =>
    rw [List.cons_append, List.dropWhile_cons, if_pos (h a (by simp))]
    exact ih (fun x hx => h x (by simp [hx]))

theorem takeWhile_all {α : Type} {p : α → Bool} {l : List α}
    (h : ∀ a ∈ l, p a = true) : l.takeWhile p = l := by
  have h2 := @takeWhile_append_all α p l [] h
  simpa using h2

theorem dropWhile_all {α : Type} {p : α → Bool} {l : List α}
    (h : ∀ a ∈ l, p a = true) : l.dropWhile p = [] := by
  have h2 := @dropWhile_append_all α p l [] h
  simpa using h2

theorem dropWhile_eq_self_of_all {α : Type} {p : α → Bool} {l : List α}
    (h : ∀ a ∈ l, p a = false) : l.dropWhile p = l := by
  cases l with
  | nil => rfl
  | cons a t =>
    rw [List.dropWhile_cons, if_neg]
    simp [h a (by simp)]

theorem pyStrip_mk_eq_self {l : List Char} (h : ∀ c ∈ l, c.isWhitespace = false) :
    pyStrip ⟨l⟩ = ⟨l⟩ := by
  rw [pyStrip]
  rw [show (String.mk l).data = l from rfl]
  rw [dropWhile_eq_self_of_all h,
    dropWhile_eq_self_of_all (fun c hc => h c (List.mem_reverse.mp hc)), List.reverse_reverse]

theorem pyUpper_mk_eq_self {l : List Char} (h : ∀ c ∈ l, Char.toUpper c = c) :
    pyUpper ⟨l⟩ = ⟨l⟩ := by
  rw [pyUpper, show (String.mk l).data = l from rfl, List.map_congr_left h]
  simp

theorem readSign_of_digit {c : Char} {cs : List Char} (h : c.isDigit = true) :
    readSign (c :: cs) = (false, c :: cs) := by
  have h1 : ¬(c = '-') := fun he => by rw [he] at h; exact absurd h (by decide)
  have h2 : ¬(c = '+') := fun he => by rw [he] at h; exact absurd h (by decide)
  simp [readSign, h1, h2]

/-! ### Evaluation of the float parser on fixed-point renderings -/

theorem pyFloatCore_digits_dot (a b : List Char) (ha : a ≠ [])
    (hadig : ∀ c ∈ a, c.isDigit = true) (hbdig : ∀ c ∈ b, c.isDigit = true) :
    pyFloatCore (a ++ '.' :: b)
      = some ((digitsToNat a : ℚ) + (digitsToNat b : ℚ) / 10 ^ b.length) := by
  obtain ⟨c, a', rfl⟩ := List.exists_cons_of_ne_nil ha
  have hsign : readSign (c :: (a' ++ '.' :: b)) = (false, c :: (a' ++ '.' :: b)) :=
    readSign_of_digit (hadig c (by simp))
  have htake : ((c :: a') ++ '.' :: b).takeWhile Char.isDigit = c :: a' := by
    rw [takeWhile_append_all hadig, List.takeWhile_cons, if_neg (by decide), List.append_nil]
  have hdrop : ((c :: a') ++ '.' :: b).dropWhile Char.isDigit = '.' :: b := by
    rw [dropWhile_append_all hadig, List.dropWhile_cons, if_neg (by decide)]
  have htb : b.takeWhile Char.isDigit = b := takeWhile_all hbdig
  have hdb : b.dropWhile Char.isDigit = [] := dropWhile_all hbdig
  rw [pyFloatCore, List.cons_append, hsign]
  simp only [← List.cons_append, htake, hdrop, htb, hdb]
  rw [if_neg (by simp)]
  simp only [parseExp, zpow_zero, mul_one, if_false, Bool.false_eq_true]

theorem pyFloatCore_neg_digits_dot (a b : List Char) (ha : a ≠ [])
    (hadig : ∀ c ∈ a, c.isDigit = true) (hbdig : ∀ c ∈ b, c.isDigit = true) :
    pyFloatCore ('-' :: (a ++ '.' :: b))
      = some (-((digitsToNat a : ℚ) + (digitsToNat b : ℚ) / 10 ^ b.length)) := by
  have hsign : readSign ('-' :: (a ++ '.' :: b)) = (true, a ++ '.' :: b) := by
    simp [readSign]
  have htake : (a ++ '.' :: b).takeWhile Char.isDigit = a := by
    rw [takeWhile_append_all hadig, List.takeWhile_cons, if_neg (by decide), List.append_nil]
  have hdrop : (a ++ '.' :: b).dropWhile Char.isDigit = '.' :: b := by
    rw [dropWhile_append_all hadig, List.dropWhile_cons, if_neg (by decide)]
  have htb : b.takeWhile Char.isDigit = b := takeWhile_all hbdig
  have hdb : b.dropWhile Char.isDigit = [] := dropWhile_all hbdig
  rw [pyFloatCore, hsign]
  simp only [htake, hdrop, htb, hdb]
  rw [if_neg (by simp [ha])]
  simp only [parseExp, zpow_zero, mul_one, if_true]

theorem fixedCharsNoG_facts :
    ∀ c ∈ "-.0123456789".data, c ∈ "-.0123456789G".data ∧ c ≠ 'G' := by
  decide

theorem pad2Chars_isDigit {m : ℕ} (h : m < 100) : ∀ c ∈ pad2Chars m, c.isDigit = true :=
  fun c hc => (digit_subset_fixed c ((pad2Chars_spec h).2.2 c hc)).2.1

theorem natAbs_val_q (n : ℕ) :
    ((n / 100 : ℕ) : ℚ) + ((n % 100 : ℕ) : ℚ) / 10 ^ (2 : ℕ) = (n : ℚ) / 100 := by
  have hnm : 100 * (n / 100) + n % 100 = n := Nat.div_add_mod n 100
  have hq : ((n : ℚ)) = 100 * ((n / 100 : ℕ) : ℚ) + ((n % 100 : ℕ) : ℚ) := by
    exact_mod_cast hnm.symm
  rw [hq]
  ring

theorem pyFloatCore_renderFixed2Chars (z : ℤ) :
    pyFloatCore (renderFixed2Chars z) = some ((z : ℚ) / 100) := by
  have hb100 : z.natAbs % 100 < 100 := Nat.mod_lt _ (by norm_num)
  obtain ⟨hblen, hbval, _⟩ := pad2Chars_spec hb100
  have hval : (digitsToNat (renderNatChars (z.natAbs / 100)) : ℚ)
      + (digitsToNat (pad2Chars (z.natAbs % 100)) : ℚ) / 10 ^ (pad2Chars (z.natAbs % 100)).length
      = (z.natAbs : ℚ) / 100 := by
    rw [digitsToNat_renderNatChars, hbval, hblen]
    exact natAbs_val_q z.natAbs
  by_cases hz : z < 0
  · rw [renderFixed2Chars, if_pos hz]
    have heq : (['-'] ++ renderNatChars (z.natAbs / 100)) ++ '.' :: pad2Chars (z.natAbs % 100)
        = '-' :: (renderNatChars (z.natAbs / 100) ++ '.' :: pad2Chars (z.natAbs % 100)) := by
      simp
    rw [heq, pyFloatCore_neg_digits_dot _ _ (renderNatChars_ne_nil _)
      (renderNatChars_isDigit _) (pad2Chars_isDigit hb100), hval]
    have habs : ((z.natAbs : ℕ) : ℚ) = -(z : ℚ) := by
      rw [Int.cast_natAbs, abs_of_neg hz]
      push_cast
      ring
    rw [habs]
    congr 1
    ring
  · rw [renderFixed2Chars, if_neg hz]
    simp only [List.nil_append]
    rw [pyFloatCore_digits_dot _ _ (renderNatChars_ne_nil _)
      (renderNatChars_isDigit _) (pad2Chars_isDigit hb100), hval]
    have habs : ((z.natAbs : ℕ) : ℚ) = (z : ℚ) := by
      rw [Int.cast_natAbs, abs_of_nonneg (not_lt.mp hz)]
    rw [habs]

theorem digit_subset_noG : ∀ c ∈ "0123456789".data, c ∈ "-.0123456789".data := by
  decide

theorem renderFixed2Chars_subset (z : ℤ) :
    ∀ c ∈ renderFixed2Chars z, c ∈ "-.0123456789".data := by
  intro c hc
  rw [renderFixed2Chars] at hc
  rcases List.mem_append.mp hc with hc2 | hc2
  · rcases List.mem_append.mp hc2 with hc3 | hc3
    · revert hc3
      split
      · intro hc3
        simp only [List.mem_singleton] at hc3
        rw [hc3]; decide
      · intro hc3
        exact absurd hc3 (List.not_mem_nil c)
    · exact digit_subset_noG c (renderNatChars_subset _ c hc3)
  · rcases List.mem_cons.mp hc2 with rfl | hc3
    · decide
    · exact digit_subset_noG c
        ((pad2Chars_spec (Nat.mod_lt _ (by norm_num) : z.natAbs % 100 < 100)).2.2 c hc3)

theorem parse_storage_value_render (z : ℤ) :
    parse_storage_value ⟨renderFixed2Chars z ++ ['G']⟩ = some ((z : ℚ) / 100) := by
  have hLmem : ∀ c ∈ renderFixed2Chars z, c ∈ "-.0123456789".data :=
    renderFixed2Chars_subset z
  have hmem : ∀ c ∈ renderFixed2Chars z ++ ['G'], c ∈ "-.0123456789G".data := by
    intro c hc
    rcases List.mem_append.mp hc with hc | hc
    · exact (fixedCharsNoG_facts c (hLmem c hc)).1
    · simp only [List.mem_singleton] at hc
      rw [hc]; decide
  have hupper : ∀ c ∈ renderFixed2Chars z ++ ['G'], Char.toUpper c = c :=
    fun c hc => (fixedChar_facts c (hmem c hc)).1
  have hnoWS : ∀ c ∈ renderFixed2Chars z ++ ['G'], c.isWhitespace = false :=
    fun c hc => (fixedChar_facts c (hmem c hc)).2.1
  have hne : (⟨renderFixed2Chars z ++ ['G']⟩ : String) ≠ "" := by
    intro h
    have h2 := congrArg String.data h
    simp at h2
  have hup : pyUpper ⟨renderFixed2Chars z ++ ['G']⟩ = ⟨renderFixed2Chars z ++ ['G']⟩ :=
    pyUpper_mk_eq_self hupper
  have hst : pyStrip ⟨renderFixed2Chars z ++ ['G']⟩ = ⟨renderFixed2Chars z ++ ['G']⟩ :=
    pyStrip_mk_eq_self hnoWS
  have hnU : (⟨renderFixed2Chars z ++ ['G']⟩ : String) ≠ "UNLIMITED" := by
    intro h
    have hd := congrArg String.data h
    have h2 := congrArg List.getLast? hd
    rw [List.getLast?_concat] at h2
    exact absurd h2 (by decide)
  have hcG : pyContains ⟨renderFixed2Chars z ++ ['G']⟩ 'G' = true := by
    rw [pyContains, show (String.mk (renderFixed2Chars z ++ ['G'])).data
      = renderFixed2Chars z ++ ['G'] from rfl, List.contains_eq_any_beq]
    simp
  have hrm : pyRemoveChar ⟨renderFixed2Chars z ++ ['G']⟩ 'G' = ⟨renderFixed2Chars z⟩ := by
    rw [pyRemoveChar]
    congr 1
    rw [show (String.mk (renderFixed2Chars z ++ ['G'])).data
      = renderFixed2Chars z ++ ['G'] from rfl, List.filter_append]
    have h1 : List.filter (fun d => decide (d ≠ 'G')) (renderFixed2Chars z)
        = renderFixed2Chars z :=
      List.filter_eq_self.mpr (fun c hc => by
        simp [(fixedCharsNoG_facts c (hLmem c hc)).2])
    have h2 : List.filter (fun d => decide (d ≠ 'G')) ['G'] = [] := by decide
    rw [h1, h2, List.append_nil]
  have hLnoWS : ∀ c ∈ renderFixed2Chars z, c.isWhitespace = false :=
    fun c hc => hnoWS c (List.mem_append_left _ hc)
  rw [parse_storage_value, if_neg hne]
  simp only [hup, hst, if_neg hnU, hcG, if_true, hrm]
  rw [pyFloat?, pyStrip_mk_eq_self hLnoWS]
  exact pyFloatCore_renderFixed2Chars z

/-- C5 (amended): the storage parser is total and maps every input to a
numeric GB value or the unlimited sentinel; wherever the uncaught body
would raise a `float()` `ValueError`, the catching wrapper degrades to
the sentinel instead of failing. (As originally stated the claim also
asserted non-negativity, which the code does not guarantee.) -/
theorem c5_parser_total_degrades (s : String) :
    parse_storage_value s =
      (match parse_storage_core s with
       | Except.ok v => v
       | Except.error _ => none) := by
  simp only [parse_storage_value, parse_storage_core]
  split_ifs with h1 h2 h3 h4 h5
  · rfl
  · rfl
  · cases pyFloat? (pyRemoveChar (pyStrip (pyUpper s)) 'G') <;> rfl
  · cases pyFloat? (pyRemoveChar (pyStrip (pyUpper s)) 'M') <;> rfl
  · cases pyFloat? (pyRemoveChar (pyStrip (pyUpper s)) 'T') <;> rfl
  · cases pyFloat? (pyStrip (pyUpper s)) <;> rfl

theorem pyFloatCore_neg_digits (a : List Char) (ha : a ≠ [])
    (hadig : ∀ c ∈ a, c.isDigit = true) :
    pyFloatCore ('-' :: a) = some (-(digitsToNat a : ℚ)) := by
  have hsign : readSign ('-' :: a) = (true, a) := by simp [readSign]
  have htake : a.takeWhile Char.isDigit = a := takeWhile_all hadig
  have hdrop : a.dropWhile Char.isDigit = [] := dropWhile_all hadig
  rw [pyFloatCore, hsign]
  simp only [htake, hdrop]
  rw [if_neg (by simp [ha])]
  simp only [parseExp, zpow_zero, mul_one, if_true]

/-- Counterexample for C5 as stated: the parser can return a negative
value, so its results are not always non-negative-or-sentinel. -/
theorem c5_counterexample :
    parse_storage_value "-5G" = some (-5) ∧ ((-5 : ℚ) < 0) := by
  have h1 : parse_storage_value "-5G" = pyFloatCore ['-', '5'] := rfl
  rw [h1, pyFloatCore_neg_digits ['5'] (by decide) (by decide)]
  have h2 : digitsToNat ['5'] = 5 := by decide
  rw [h2]
  norm_num

/-- C6 (amended): formatting rounds to two decimals, so parsing a
formatted finite quantity returns the quantity rounded to two decimal
places; on every exact multiple of 0.01 (in particular every value the
parser itself produces from a `%.2f` rendering) the round trip is the
identity, and the unlimited sentinel round-trips through `UNLIMITED`.
(As originally stated, `parse(format(q)) = q` for all finite `q`, which
fails for quantities not representable in two decimals.) -/
theorem c6_roundtrip_rounded (q : ℚ) :
    parse_storage_value (format_storage_gb (some q) "UNLIMITED")
        = some (((round (q * 100) : ℤ) : ℚ) / 100)
      ∧ (∀ z : ℤ, parse_storage_value (format_storage_gb (some ((z : ℚ) / 100)) "UNLIMITED")
          = some ((z : ℚ) / 100))
      ∧ format_storage_gb none "UNLIMITED" = "UNLIMITED"
      ∧ parse_storage_value "UNLIMITED" = none := by
  have key : ∀ w : ℚ, parse_storage_value (format_storage_gb (some w) "UNLIMITED")
      = some (((round (w * 100) : ℤ) : ℚ) / 100) := by
    intro w
    have hfmt : format_storage_gb (some w) "UNLIMITED"
        = ⟨renderFixed2Chars (round (w * 100)) ++ ['G']⟩ := rfl
    rw [hfmt]
    exact parse_storage_value_render (round (w * 100))
  refine ⟨key q, ?_, rfl, by decide⟩
  intro z
  have hz : ((z : ℚ) / 100) * 100 = (z : ℚ) := by
    field_simp
  rw [key ((z : ℚ) / 100), hz, round_intCast]

/-- Counterexample for C6 as stated: 0.001 GB formats to `0.00G`, which
parses back to 0, not 0.001. -/
theorem c6_counterexample :
    parse_storage_value (format_storage_gb (some ((1 : ℚ)/1000)) "UNLIMITED") = some 0
      ∧ some (0 : ℚ) ≠ some ((1 : ℚ)/1000) := by
  have hr : round ((1:ℚ)/1000 * 100) = 0 := by norm_num
  have hfmt : format_storage_gb (some ((1:ℚ)/1000)) "UNLIMITED"
      = ⟨renderFixed2Chars 0 ++ ['G']⟩ := by
    show renderFixed2 ((1:ℚ)/1000) ++ "G" = _
    rw [renderFixed2, hr]
    rfl
  rw [hfmt, parse_storage_value_render 0]
  norm_num

/-- Witness for C1: instance of the classification rule at a concrete
key and maps. -/
theorem c1_classification_witness :
    pdbParamRows true [("sga_target", "4G")] [("sga_target", "8G")]
        = (keysUnion [("sga_target", "4G")] [("sga_target", "8G")]).map
            (pdbRowFor true [("sga_target", "4G")] [("sga_target", "8G")])
      ∧ (pdbRowFor true [("sga_target", "4G")] [("sga_target", "8G")] "sga_target").status =
          (if (true : Bool) = false then "Pending"
           else if getD [("sga_target", "4G")] "sga_target" "Not Set"
               = getD [("sga_target", "8G")] "sga_target" "Not Set" then "SAME" else "DIFF") :=
  c1_classification true [("sga_target", "4G")] [("sga_target", "8G")] "sga_target"

/-- Witness for C2: instance of the union/sortedness/all-match theorem
on the empty maps, giving the vacuous case directly. -/
theorem c2_union_sorted_all_match_witness :
    (postcheckParamsMatch ([] : ParamMap) [] = true ↔
        ∀ r ∈ cdbParamRows ([] : ParamMap) [], r.status = "SAME")
      ∧ cdbParamRows ([] : ParamMap) [] = []
      ∧ postcheckParamsMatch ([] : ParamMap) [] = true := by
  have h := c2_union_sorted_all_match ([] : ParamMap) []
  exact ⟨h.2.2.2.1, h.2.2.2.2⟩

/-- Witness for C5: instance of the degrade relation at an unparseable
input. -/
theorem c5_parser_total_degrades_witness :
    parse_storage_value "garbage" =
      (match parse_storage_core "garbage" with
       | Except.ok v => v
       | Except.error _ => none) :=
  c5_parser_total_degrades "garbage"

/-- Witness for C6: instance of the rounded round-trip at 50 GB. -/
theorem c6_roundtrip_rounded_witness :
    parse_storage_value (format_storage_gb (some (50 : ℚ)) "UNLIMITED")
        = some (((round ((50 : ℚ) * 100) : ℤ) : ℚ) / 100)
      ∧ parse_storage_value (format_storage_gb (some (((50 : ℤ) : ℚ) / 100)) "UNLIMITED")
        = some (((50 : ℤ) : ℚ) / 100)
      ∧ format_storage_gb none "UNLIMITED" = "UNLIMITED"
      ∧ parse_storage_value "UNLIMITED" = none := by
  have h := c6_roundtrip_rounded 50
  exact ⟨h.1, h.2.1 50, h.2.2.1, h.2.2.2⟩

/-- Witness for C7: instance of the sufficiency equivalence at the
UNLIMITED sentinel. -/
theorem c7_storage_sufficiency_witness :
    maxPdbStorageStatus true "UNLIMITED" 50 = "PASS"
      ↔ ((targetMaxStorage true "UNLIMITED").2 = none
          ∨ ∃ g, (targetMaxStorage true "UNLIMITED").2 = some g ∧ (50 : ℚ) ≤ g) :=
  c7_storage_sufficiency true "UNLIMITED" 50
